import Mathlib

/-
Shallow embedding of the conversation/session engine of the
OpenAIConversationEnhanced integration (`OpenAIAgent.async_process` in
`__init__.py`), together with the JSON decoding it performs via
`json.loads`.  External collaborators (template rendering, the OpenAI
chat-completion call, `hass.services.async_call`, ulid generation) are
modelled as oracle outcomes supplied in a `TurnEnv`; everything else is
translated from the source.
-/

namespace OpenAIConv

/-- JSON values as produced by the Python function `json.loads`.  Numbers keep their
source lexeme (their numeric semantics is never consumed by the engine);
objects are ordered key/value lists built with dict-assignment semantics,
so keys are unique and a re-assigned key keeps its original position. -/
inductive Json where
  | null
  | bool (b : Bool)
  | num (lexeme : String)
  | str (s : String)
  | arr (elems : List Json)
  | obj (entries : List (String × Json))

/-- Python dict assignment `d[k] = v`: replace in place if the key exists,
otherwise append at the end. -/
def objInsert : List (String × Json) → String → Json → List (String × Json)
  | [], k, v => [(k, v)]
  | (k₀, v₀) :: rest, k, v =>
      if k₀ = k then (k, v) :: rest else (k₀, v₀) :: objInsert rest k v

/-- Python dict lookup `d[k]` (keys are unique by construction). -/
def objLookup (entries : List (String × Json)) (k : String) : Option Json :=
  (entries.find? (fun p => p.1 == k)).map (fun p => p.2)

/-- Python `del d[k]`. -/
def objErase (entries : List (String × Json)) (k : String) : List (String × Json) :=
  entries.filter (fun p => p.1 != k)

/-- Whether a JSON value is an object, i.e. `type(x) == dict` in Python. -/
def Json.isObj : Json → Bool
  | .obj _ => true
  | _ => false

/-! ### A model of `json.loads` (recursive-descent, RFC 8259 plus the
Python extras `NaN`/`Infinity`/`-Infinity`), operating on character
lists.  Parsing functions take fuel; the top level supplies
`length + 1`, which suffices because every recursive call is made after
at least one character has been consumed. -/

/-- JSON insignificant whitespace (the regex class of space, tab, newline, carriage return). -/
def isJsonWs (c : Char) : Bool :=
  c = ' ' || c = '\t' || c = '\n' || c = '\r'

def skipWs : List Char → List Char
  | [] => []
  | c :: cs => if isJsonWs c then skipWs cs else c :: cs

/-- Value of one hexadecimal digit, as `int(c, 16)` accepts it (both
letter cases), via code points: 48-57 are the digits, 97-102 the lower
and 65-70 the upper letters. -/
def hexDigitVal (c : Char) : Option Nat :=
  let n := c.toNat
  if 48 ≤ n && n ≤ 57 then some (n - 48)
  else if 97 ≤ n && n ≤ 102 then some (n - 87)
  else if 65 ≤ n && n ≤ 70 then some (n - 55)
  else none

/-- The four hex digits of a `\uXXXX` escape. -/
def hexQuad : List Char → Option (Nat × List Char)
  | c₁ :: c₂ :: c₃ :: c₄ :: rest =>
      match hexDigitVal c₁, hexDigitVal c₂, hexDigitVal c₃, hexDigitVal c₄ with
      | some v₁, some v₂, some v₃, some v₄ =>
          some (v₁ * 4096 + v₂ * 256 + v₃ * 16 + v₄, rest)
      | _, _, _, _ => none
  | _ => none

/-- Body of a JSON string after the opening quote: characters up to the
closing quote, decoding backslash escapes (including `\uXXXX` with
surrogate-pair combination) and rejecting raw control characters, as
the strict Python scanner does.  A lone surrogate is mapped through
`Char.ofNat` (the Lean `Char` type cannot carry it; no engine path depends on
this corner). -/
def parseStrAux : Nat → List Char → List Char → Option (String × List Char)
  | 0, _, _ => none
  | _ + 1, _, [] => none
  | fuel + 1, acc, c :: cs =>
    if c = '\x22' then some (String.mk acc.reverse, cs)
    else if c = '\\' then
      match cs with
      | [] => none
      | e :: cs₁ =>
        if e = '\x22' then parseStrAux fuel ('\x22' :: acc) cs₁
        else if e = '\\' then parseStrAux fuel ('\\' :: acc) cs₁
        else if e = '/' then parseStrAux fuel ('/' :: acc) cs₁
        else if e = 'b' then parseStrAux fuel ('\x08' :: acc) cs₁
        else if e = 'f' then parseStrAux fuel ('\x0c' :: acc) cs₁
        else if e = 'n' then parseStrAux fuel ('\n' :: acc) cs₁
        else if e = 'r' then parseStrAux fuel ('\x0d' :: acc) cs₁
        else if e = 't' then parseStrAux fuel ('\t' :: acc) cs₁
        else if e = 'u' then
          match hexQuad cs₁ with
          | none => none
          | some (n, cs₂) =>
            if 0xD800 ≤ n && n ≤ 0xDBFF then
              match cs₂ with
              | '\\' :: 'u' :: cs₃ =>
                match hexQuad cs₃ with
                | some (m, cs₄) =>
                  if 0xDC00 ≤ m && m ≤ 0xDFFF then
                    parseStrAux fuel
                      (Char.ofNat (0x10000 + (n - 0xD800) * 0x400 + (m - 0xDC00)) :: acc) cs₄
                  else parseStrAux fuel (Char.ofNat n :: acc) cs₂
                | none => parseStrAux fuel (Char.ofNat n :: acc) cs₂
              | _ => parseStrAux fuel (Char.ofNat n :: acc) cs₂
            else parseStrAux fuel (Char.ofNat n :: acc) cs₂
        else none
    else if c.toNat < 0x20 then none
    else parseStrAux fuel (c :: acc) cs

/-- Longest digit run. -/
def takeDigits : List Char → List Char × List Char
  | [] => ([], [])
  | c :: cs =>
      if c.isDigit then
        let (ds, rest) := takeDigits cs
        (c :: ds, rest)
      else ([], c :: cs)

/-- Integer part of the JSON number grammar: `0 | [1-9][0-9]*`. -/
def parseIntPart : List Char → Option (List Char × List Char)
  | [] => none
  | c :: cs =>
      if c = '0' then some (['0'], cs)
      else if c.isDigit then
        let (ds, rest) := takeDigits cs
        some (c :: ds, rest)
      else none

/-- Optional fraction `(\.[0-9]+)?`; like the regex, a malformed fraction
is simply not part of the match. -/
def parseFracPart : List Char → List Char × List Char
  | '.' :: cs =>
      let (ds, rest) := takeDigits cs
      if ds.isEmpty then ([], '.' :: cs) else ('.' :: ds, rest)
  | cs => ([], cs)

/-- Optional exponent `([eE][-+]?[0-9]+)?`; malformed means not matched. -/
def parseExpPart : List Char → List Char × List Char
  | [] => ([], [])
  | c :: cs =>
      if c = 'e' || c = 'E' then
        match cs with
        | [] => ([], c :: cs)
        | s :: cs₁ =>
          if s = '+' || s = '-' then
            let (ds, rest) := takeDigits cs₁
            if ds.isEmpty then ([], c :: cs) else (c :: s :: ds, rest)
          else
            let (ds, rest) := takeDigits cs
            if ds.isEmpty then ([], c :: cs) else (c :: ds, rest)
      else ([], c :: cs)

/-- JSON number token, as matched by the Python NUMBER_RE regex; the lexeme is
kept verbatim. -/
def parseNumber (cs : List Char) : Option (String × List Char) :=
  let (sgn, cs₁) :=
    match cs with
    | '-' :: rest => (['-'], rest)
    | _ => (([] : List Char), cs)
  match parseIntPart cs₁ with
  | none => none
  | some (ip, cs₂) =>
    let (fp, cs₃) := parseFracPart cs₂
    let (ep, cs₄) := parseExpPart cs₃
    some (String.mk (sgn ++ ip ++ fp ++ ep), cs₄)

mutual

/-- One JSON value at the head of the input (whitespace already skipped). -/
def parseValue : Nat → List Char → Option (Json × List Char)
  | 0, _ => none
  | fuel + 1, cs =>
    match cs with
    | 't' :: 'r' :: 'u' :: 'e' :: rest => some (.bool true, rest)
    | 'f' :: 'a' :: 'l' :: 's' :: 'e' :: rest => some (.bool false, rest)
    | 'n' :: 'u' :: 'l' :: 'l' :: rest => some (.null, rest)
    | 'N' :: 'a' :: 'N' :: rest => some (.num "NaN", rest)
    | 'I' :: 'n' :: 'f' :: 'i' :: 'n' :: 'i' :: 't' :: 'y' :: rest =>
        some (.num "Infinity", rest)
    | '-' :: 'I' :: 'n' :: 'f' :: 'i' :: 'n' :: 'i' :: 't' :: 'y' :: rest =>
        some (.num "-Infinity", rest)
    | '\x22' :: rest =>
        match parseStrAux (rest.length + 1) [] rest with
        | some (s, rest₁) => some (.str s, rest₁)
        | none => none
    | '\x7b' :: rest =>
        (match skipWs rest with
         | '\x7d' :: rest₁ => some (.obj [], rest₁)
         | cs₁ => parseObjPairs fuel cs₁ [])
    | '[' :: rest =>
        (match skipWs rest with
         | ']' :: rest₁ => some (.arr [], rest₁)
         | cs₁ => parseArrItems fuel cs₁ [])
    | _ =>
        match parseNumber cs with
        | some (lex, rest) => some (.num lex, rest)
        | none => none

/-- Members of a non-empty object: `"key" : value (, "key" : value)* }`,
input positioned at a key with whitespace skipped. -/
def parseObjPairs : Nat → List Char → List (String × Json) → Option (Json × List Char)
  | 0, _, _ => none
  | fuel + 1, cs, acc =>
    match cs with
    | '\x22' :: rest =>
      (match parseStrAux (rest.length + 1) [] rest with
       | none => none
       | some (k, rest₁) =>
         match skipWs rest₁ with
         | ':' :: rest₂ =>
           (match parseValue fuel (skipWs rest₂) with
            | none => none
            | some (v, rest₃) =>
              let acc₁ := objInsert acc k v
              match skipWs rest₃ with
              | ',' :: rest₄ => parseObjPairs fuel (skipWs rest₄) acc₁
              | '\x7d' :: rest₄ => some (.obj acc₁, rest₄)
              | _ => none)
         | _ => none)
    | _ => none

/-- Elements of a non-empty array, input positioned at a value with
whitespace skipped. -/
def parseArrItems : Nat → List Char → List Json → Option (Json × List Char)
  | 0, _, _ => none
  | fuel + 1, cs, acc =>
    match parseValue fuel cs with
    | none => none
    | some (v, rest) =>
      match skipWs rest with
      | ',' :: rest₁ => parseArrItems fuel (skipWs rest₁) (acc ++ [v])
      | ']' :: rest₁ => some (.arr (acc ++ [v]), rest₁)
      | _ => none

end

/-- `json.loads`: skip leading whitespace, read one value, and require
that only whitespace remains; `none` models `json.JSONDecodeError`. -/
def json_loads (s : String) : Option Json :=
  let cs := skipWs s.toList
  match parseValue (cs.length + 1) cs with
  | none => none
  | some (v, rest) => if (skipWs rest).isEmpty then some v else none

/-! ### The conversation engine (`OpenAIAgent.async_process`). -/

/-- One chat message, `{"role": ..., "content": ...}`. -/
structure Message where
  role : String
  content : String
deriving DecidableEq, Repr

/-- The agent field `self.history : dict[str, list[dict]]`, as an ordered
key/value list with dict semantics (unique keys, assignment keeps an
existing key in place). -/
abbrev HistMap := List (String × List Message)

def histLookup (history : HistMap) (cid : String) : Option (List Message) :=
  (history.find? (fun p => p.1 == cid)).map (fun p => p.2)

/-- `self.history[cid] = msgs`. -/
def histInsert : HistMap → String → List Message → HistMap
  | [], cid, msgs => [(cid, msgs)]
  | (k₀, v₀) :: rest, cid, msgs =>
      if k₀ = cid then (cid, msgs) :: rest else (k₀, v₀) :: histInsert rest cid msgs

/-- `conversation.ConversationInput`: the fields `async_process` reads. -/
structure ConversationInput where
  text : String
  conversation_id : Option String
  language : String
deriving DecidableEq, Repr

/-- Outcomes of the external collaborators of one turn, supplied as oracles:
`fresh_id` is the `ulid.ulid()` the turn would mint, `render` the
template-rendering result (`TemplateError` message or rendered prompt),
`complete` the `openai.ChatCompletion.acreate` result (`OpenAIError`
message or the message content of the first choice), and `dispatch` the
outcome `hass.services.async_call` would produce if invoked. -/
structure TurnEnv where
  fresh_id : String
  render : Except String String
  complete : Except String String
  dispatch : Except String Unit
deriving Repr

/-- `intent.IntentResponse` as the turn leaves it: either
`async_set_error(UNKNOWN, message)` or `async_set_speech(value)` (the
spoken value is whatever Python object the `comment` key held, hence a
`Json`; the diagnostics of the engine itself are strings). -/
inductive IntentResponse where
  | error (message : String)
  | speech (value : Json)

/-- `conversation.ConversationResult`. -/
structure ConversationResult where
  response : IntentResponse
  conversation_id : String

/-- A Python exception escaping `async_process` uncaught. -/
inductive PyExc where
  | keyError (key : String)
deriving DecidableEq, Repr

/-- Everything observable about one call to `async_process`: the
returned value (or the exception that escaped), the history map after
the call, the message list sent to the chat-completion API (if it was
called), and the argument triple passed to `hass.services.async_call`
(if it was called). -/
structure ProcessOutcome where
  result : Except PyExc ConversationResult
  history : HistMap
  sent : Option (List Message)
  dispatched : Option (Json × Json × Json)

/-- The literal appended to every user utterance (line 144). -/
def instructionSuffix : String := " Answer in syntactially perfect json and only json,"

/-- The seeded assistant acknowledgement (line 166). -/
def seedAssistant : String := "\x7b\x22comment\x22:\x22Got it!\x22\x7d"

/-- The Python call `str.replace(",}", "}")`: left-to-right scan replacing every
non-overlapping occurrence (line 201). -/
def replaceCommaBraceChars : List Char → List Char
  | ',' :: '\x7d' :: rest => '\x7d' :: replaceCommaBraceChars rest
  | c :: rest => c :: replaceCommaBraceChars rest
  | [] => []

def pyReplaceCommaBrace (s : String) : String :=
  String.mk (replaceCommaBraceChars s.toList)

/-- The exception caught by the parse-phase `except` (lines 200-205):
`json.JSONDecodeError`, the `TypeError` from subscripting a non-dict, or
the `KeyError` for a missing key. -/
inductive ParseExc where
  | jsonDecode
  | notMapping
  | keyMissing (k : String)
deriving DecidableEq, Repr

/-- Rendering of the caught exception as interpolated into the
diagnostic f-string.  The exact host text (error positions, TypeError
wording) is runtime-specific; what matters to the engine is that it is
some short description of the failure, never containing the reply. -/
def parseExcText : ParseExc → String
  | .jsonDecode => "Expecting value"
  | .notMapping => "object is not subscriptable"
  | .keyMissing k => "\x27" ++ k ++ "\x27"

/-- Stands in for `traceback.format_exc()`: host-specific text (stack
frames of this integration and of the json module), never containing
the reply of the model. -/
def tracebackText : String := "Traceback (most recent call last):"

/-- Lines 200-204: parse the (already repaired) reply text, require a
dict with a `comment` key, return the comment and the dict with the
comment deleted. -/
def extractComment (response : String) : Except ParseExc (Json × List (String × Json)) :=
  match json_loads response with
  | none => .error .jsonDecode
  | some (.obj entries) =>
      match objLookup entries "comment" with
      | none => .error (.keyMissing "comment")
      | some c => .ok (c, objErase entries "comment")
  | some _ => .error .notMapping

mutual

/-- Python `repr` of a loaded JSON value, as f-string interpolation
shows it (quote-escaping corners inside strings elided; no engine claim
depends on them). -/
def pyRepr : Json → String
  | .null => "None"
  | .bool true => "True"
  | .bool false => "False"
  | .num lex => lex
  | .str s => "\x27" ++ s ++ "\x27"
  | .arr elems => "[" ++ pyReprListAux elems ++ "]"
  | .obj entries => "\x7b" ++ pyReprEntriesAux entries ++ "\x7d"

/-- Comma-separated reprs of array elements. -/
def pyReprListAux : List Json → String
  | [] => ""
  | [x] => pyRepr x
  | x :: rest => pyRepr x ++ ", " ++ pyReprListAux rest

/-- Comma-separated quoted-key/value reprs of dict entries. -/
def pyReprEntriesAux : List (String × Json) → String
  | [] => ""
  | [(k, v)] => "\x27" ++ k ++ "\x27: " ++ pyRepr v
  | (k, v) :: rest => "\x27" ++ k ++ "\x27: " ++ pyRepr v ++ ", " ++ pyReprEntriesAux rest

end

/-- Repr of the tuple `(domain, service, data)` interpolated into the
dispatch-failure f-string (lines 225-227). -/
def pyReprTriple (d s dat : Json) : String :=
  "(" ++ pyRepr d ++ ", " ++ pyRepr s ++ ", " ++ pyRepr dat ++ ")"

/-- Lines 141-168: build the message list for the model.  `.ok` carries
the conversation id used for the rest of the turn and the messages;
`.error` carries the spoken template diagnostic (the only failure here,
from rendering in the new-session branch). -/
def buildNewSession (env : TurnEnv) (new_message : Message) :
    Except String (String × List Message) :=
  match env.render with
  | .error err => .error ("Sorry, I had a problem with my template: " ++ err)
  | .ok prompt =>
      .ok (env.fresh_id,
        [⟨"user", prompt⟩, ⟨"assistant", seedAssistant⟩, new_message])

def buildMessages (history : HistMap) (env : TurnEnv) (user_input : ConversationInput) :
    Except String (String × List Message) :=
  let new_message : Message := ⟨"user", user_input.text ++ instructionSuffix⟩
  match user_input.conversation_id with
  | some cid =>
      match histLookup history cid with
      | some msgs => .ok (cid, msgs ++ [new_message])
      | none => buildNewSession env new_message
  | none => buildNewSession env new_message

/-- `OpenAIAgent.async_process` (lines 132-240), over the oracle
outcomes in `env`.  Faithful points worth noting:
* the history commit (lines 196-198) stores the *raw* reply and happens
  before the parse `try`, so parse and dispatch failures leave it in
  place;
* line 201 rebinds the local `response` to the repaired text, so the
  parse diagnostic interpolates the repaired, not the raw, reply;
* inside the dispatch `try`, `command["domain"/"service"/"data"]` are
  evaluated in argument order, and the `except` handler re-evaluates the
  same three subscripts while building its f-string — so a missing key
  raises `KeyError` a second time, inside the handler, and that
  exception escapes `async_process` uncaught. -/
def async_process (history : HistMap) (env : TurnEnv) (user_input : ConversationInput) :
    ProcessOutcome :=
  match buildMessages history env user_input with
  | .error msg =>
      { result := .ok ⟨.error msg, env.fresh_id⟩
        history := history, sent := none, dispatched := none }
  | .ok (conversation_id, messages) =>
    match env.complete with
    | .error err =>
        { result := .ok ⟨.error ("Sorry, I had a problem talking to OpenAI: " ++ err),
            conversation_id⟩
          history := history, sent := some messages, dispatched := none }
    | .ok rawReply =>
      let history₁ := histInsert history conversation_id
        (messages ++ [⟨"assistant", rawReply⟩])
      let response := pyReplaceCommaBrace rawReply
      match extractComment response with
      | .error e =>
          { result := .ok ⟨.speech (.str ("Unable to parse: " ++ response
              ++ ("\nError: " ++ parseExcText e ++ "\n" ++ tracebackText))), conversation_id⟩
            history := history₁, sent := some messages, dispatched := none }
      | .ok (comment, response_json) =>
        match objLookup response_json "command" with
        | some (.obj cmd) =>
          (match objLookup cmd "domain" with
           | none =>
               { result := .error (.keyError "domain")
                 history := history₁, sent := some messages, dispatched := none }
           | some d =>
             match objLookup cmd "service" with
             | none =>
                 { result := .error (.keyError "service")
                   history := history₁, sent := some messages, dispatched := none }
             | some s =>
               match objLookup cmd "data" with
               | none =>
                   { result := .error (.keyError "data")
                     history := history₁, sent := some messages, dispatched := none }
               | some dat =>
                 match env.dispatch with
                 | .ok _ =>
                     { result := .ok ⟨.speech comment, conversation_id⟩
                       history := history₁, sent := some messages
                       dispatched := some (d, s, dat) }
                 | .error err =>
                     { result := .ok ⟨.speech (.str ("Unable to execute: "
                         ++ pyReprTriple d s dat ++ " \n Error: " ++ err
                         ++ "\n" ++ tracebackText)), conversation_id⟩
                       history := history₁, sent := some messages
                       dispatched := some (d, s, dat) })
        | _ =>
            { result := .ok ⟨.speech comment, conversation_id⟩
              history := history₁, sent := some messages, dispatched := none }

/-! ### Substring occurrence, for stating what a diagnostic carries. -/

/-- Whether `needle` occurs contiguously in the haystack. -/
def hasSubList (needle : List Char) : List Char → Bool
  | [] => needle.isEmpty
  | c :: cs => needle.isPrefixOf (c :: cs) || hasSubList needle cs

/-- Whether `needle` occurs contiguously (verbatim) in `haystack`. -/
def strContains (haystack needle : String) : Bool :=
  hasSubList needle.toList haystack.toList

theorem hasSubList_cons_of (needle : List Char) (c : Char) (cs : List Char)
    (h : hasSubList needle cs = true) : hasSubList needle (c :: cs) = true := by
  simp [hasSubList, h]

theorem hasSubList_sandwich (pre needle suf : List Char) :
    hasSubList needle (pre ++ needle ++ suf) = true := by
  induction pre with
  | nil =>
      cases needle with
      | nil => cases suf <;> simp [hasSubList]
      | cons c cs =>
          have hp : (c :: cs).isPrefixOf ((c :: cs) ++ suf) = true := by
            rw [List.isPrefixOf_iff_prefix]
            exact List.prefix_append _ _
          simp [hasSubList, hp]
  | cons p ps ih => exact hasSubList_cons_of _ p _ ih

theorem toList_append (a b : String) : (a ++ b).toList = a.toList ++ b.toList := rfl

theorem strContains_sandwich (pre needle suf : String) :
    strContains (pre ++ needle ++ suf) needle = true := by
  unfold strContains
  rw [toList_append, toList_append]
  exact hasSubList_sandwich pre.toList needle.toList suf.toList


/-! ## Concrete turn fixtures for the claims -/

def c1Reply : String :=
  "\x7b\x22comment\x22:\x22hi\x22,\x22command\x22:\x7b\x22service\x22:\x22turn_on\x22,\x22data\x22:\x7b\x7d\x7d\x7d"

def c1Env : TurnEnv := ⟨"01C1FRESH", .ok "rendered prompt", .ok c1Reply, .ok ()⟩

def c1Input : ConversationInput := ⟨"turn on the light", none, "en"⟩

/-! ## The claims -/

/-- C1 (code bug): the spec says no failure ever escapes the turn as an
exception, including when the dispatched command mapping lacks a
`domain`, `service` or `data` key — but when the parsed command mapping
lacks `domain`, the dispatch except-handler itself re-evaluates the
missing subscript, and the resulting `KeyError` escapes `async_process`
uncaught.  At the concrete turn below (reply
`{"comment":"hi","command":{"service":"turn_on","data":{}}}`) the turn
ends in an escaped `KeyError("domain")` instead of a `TurnResult`. -/
theorem c1_missing_domain_key_escapes :
    (async_process [] c1Env c1Input).result = .error (.keyError "domain") := rfl

/-- C2: for every turn that reaches the completion step (message build
succeeded and the provider returned raw text), the stored history for
the conversation id becomes exactly the built message list extended by
the raw assistant reply — for every dispatch oracle and every reply
text, hence identically whether the later parse or dispatch succeeds or
fails. -/
theorem c2_history_committed_once (history : HistMap) (env : TurnEnv)
    (user_input : ConversationInput) (cid : String) (msgs : List Message) (raw : String)
    (hb : buildMessages history env user_input = .ok (cid, msgs))
    (hc : env.complete = .ok raw) :
    (async_process history env user_input).history
      = histInsert history cid (msgs ++ [⟨"assistant", raw⟩]) := by
  simp only [async_process, hb, hc]
  repeat' split
  all_goals rfl

def c2History : HistMap := [("sess", [⟨"user", "earlier"⟩])]

def c2Env : TurnEnv := ⟨"01C2FRESH", .ok "p", .ok "reply text", .ok ()⟩

def c2Input : ConversationInput := ⟨"hello", some "sess", "en"⟩

/-- C2 witness: the theorem applied to a concrete known-session turn. -/
theorem c2_witness :
    (async_process c2History c2Env c2Input).history
      = histInsert c2History "sess"
          ([⟨"user", "earlier"⟩, ⟨"user", "hello" ++ instructionSuffix⟩]
            ++ [⟨"assistant", "reply text"⟩]) :=
  c2_history_committed_once c2History c2Env c2Input "sess"
    [⟨"user", "earlier"⟩, ⟨"user", "hello" ++ instructionSuffix⟩] "reply text" rfl rfl

/-- C3: for every turn whose completion call fails with a provider
error, the history map is returned completely unchanged (no append, no
new session entry), no dispatch happens, and the turn returns the
spoken provider diagnostic with the session id of the turn. -/
theorem c3_provider_failure_leaves_history (history : HistMap) (env : TurnEnv)
    (user_input : ConversationInput) (cid : String) (msgs : List Message) (err : String)
    (hb : buildMessages history env user_input = .ok (cid, msgs))
    (hc : env.complete = .error err) :
    (async_process history env user_input).history = history
    ∧ (async_process history env user_input).result
        = .ok ⟨.error ("Sorry, I had a problem talking to OpenAI: " ++ err), cid⟩
    ∧ (async_process history env user_input).dispatched = none := by
  refine ⟨?_, ?_, ?_⟩ <;> simp only [async_process, hb, hc]

def c3History : HistMap := [("sess", [⟨"user", "earlier"⟩])]

def c3Env : TurnEnv := ⟨"01C3FRESH", .ok "p", .error "rate limited", .ok ()⟩

def c3Input : ConversationInput := ⟨"hello", some "sess", "en"⟩

/-- C3 witness: the theorem applied to a concrete failing-provider turn. -/
theorem c3_witness :
    (async_process c3History c3Env c3Input).history = c3History
    ∧ (async_process c3History c3Env c3Input).result
        = .ok ⟨.error ("Sorry, I had a problem talking to OpenAI: " ++ "rate limited"), "sess"⟩
    ∧ (async_process c3History c3Env c3Input).dispatched = none :=
  c3_provider_failure_leaves_history c3History c3Env c3Input "sess"
    [⟨"user", "earlier"⟩, ⟨"user", "hello" ++ instructionSuffix⟩] "rate limited" rfl rfl

/-- C4: parsing the raw text
`{"comment":"hi","command":{"domain":"light","service":"turn_on","data":{}},}`
succeeds — the trailing comma before the closing brace is repaired, the
extracted comment is `hi`, and the remaining object (comment key
removed) maps `command` to the full domain/service/data mapping. -/
theorem c4_trailing_comma_repaired :
    extractComment (pyReplaceCommaBrace
        "\x7b\x22comment\x22:\x22hi\x22,\x22command\x22:\x7b\x22domain\x22:\x22light\x22,\x22service\x22:\x22turn_on\x22,\x22data\x22:\x7b\x7d\x7d,\x7d")
      = .ok (.str "hi",
          [("command", .obj [("domain", .str "light"), ("service", .str "turn_on"),
            ("data", .obj [])])]) := rfl

/-- C5: whenever the parsed object has a `command` key whose value is
not a mapping, the turn succeeds with the comment as speech, and no
command is dispatched — no error result arises from this shape. -/
theorem c5_non_mapping_command_ignored (history : HistMap) (env : TurnEnv)
    (user_input : ConversationInput) (cid : String) (msgs : List Message) (raw : String)
    (comment v : Json) (rest : List (String × Json))
    (hb : buildMessages history env user_input = .ok (cid, msgs))
    (hc : env.complete = .ok raw)
    (hp : extractComment (pyReplaceCommaBrace raw) = .ok (comment, rest))
    (hcmd : objLookup rest "command" = some v)
    (hv : v.isObj = false) :
    (async_process history env user_input).result = .ok ⟨.speech comment, cid⟩
    ∧ (async_process history env user_input).dispatched = none := by
  simp only [async_process, hb, hc, hp, hcmd]
  cases v with
  | obj entries => simp [Json.isObj] at hv
  | null => exact ⟨rfl, rfl⟩
  | bool b => exact ⟨rfl, rfl⟩
  | num l => exact ⟨rfl, rfl⟩
  | str s => exact ⟨rfl, rfl⟩
  | arr xs => exact ⟨rfl, rfl⟩

def c5Reply : String := "\x7b\x22comment\x22:\x22hi\x22,\x22command\x22:\x22not a dict\x22\x7d"

def c5Env : TurnEnv := ⟨"01C5FRESH", .ok "p", .ok c5Reply, .ok ()⟩

def c5Input : ConversationInput := ⟨"hello", none, "en"⟩

/-- C5 witness: the theorem applied to the concrete reply
`{"comment":"hi","command":"not a dict"}`. -/
theorem c5_witness :
    (async_process [] c5Env c5Input).result = .ok ⟨.speech (.str "hi"), "01C5FRESH"⟩
    ∧ (async_process [] c5Env c5Input).dispatched = none :=
  c5_non_mapping_command_ignored [] c5Env c5Input "01C5FRESH"
    [⟨"user", "p"⟩, ⟨"assistant", seedAssistant⟩, ⟨"user", "hello" ++ instructionSuffix⟩]
    c5Reply (.str "hi") (.str "not a dict") [("command", .str "not a dict")]
    rfl rfl rfl rfl rfl

def c6Env : TurnEnv := ⟨"01C6FRESH", .ok "p", .ok "XYZZY,\x7d", .ok ()⟩

def c6Input : ConversationInput := ⟨"q", none, "en"⟩

def c6Diag : String :=
  "Unable to parse: XYZZY\x7d\nError: " ++ parseExcText .jsonDecode ++ "\n" ++ tracebackText

/-- C6 counterexample: for the raw reply `XYZZY,}` the parse fails, but
the spoken diagnostic interpolates the repaired text `XYZZY}` (line 201
rebinds `response` before the failing parse), so the raw model text
does not occur verbatim in the diagnostic. -/
theorem c6_raw_text_not_in_diagnostic :
    (async_process [] c6Env c6Input).result = .ok ⟨.speech (.str c6Diag), "01C6FRESH"⟩
    ∧ strContains c6Diag "XYZZY,\x7d" = false
    ∧ strContains c6Diag "XYZZY\x7d" = true :=
  ⟨rfl, rfl, rfl⟩

/-- C6 amended: for every raw reply that fails to parse, the turn ends
with a spoken diagnostic that contains verbatim the repaired reply (the
raw text with every `,}` replaced by `}` — equal to the raw text
whenever it contains no `,}`) together with the underlying error, and
no command is dispatched. -/
theorem c6_parse_failure_diagnostic (history : HistMap) (env : TurnEnv)
    (user_input : ConversationInput) (cid : String) (msgs : List Message) (raw : String)
    (e : ParseExc)
    (hb : buildMessages history env user_input = .ok (cid, msgs))
    (hc : env.complete = .ok raw)
    (hp : extractComment (pyReplaceCommaBrace raw) = .error e) :
    (async_process history env user_input).result
      = .ok ⟨.speech (.str ("Unable to parse: " ++ pyReplaceCommaBrace raw
          ++ ("\nError: " ++ parseExcText e ++ "\n" ++ tracebackText))), cid⟩
    ∧ (async_process history env user_input).dispatched = none
    ∧ strContains ("Unable to parse: " ++ pyReplaceCommaBrace raw
          ++ ("\nError: " ++ parseExcText e ++ "\n" ++ tracebackText))
        (pyReplaceCommaBrace raw) = true := by
  refine ⟨?_, ?_, strContains_sandwich _ _ _⟩ <;>
    simp only [async_process, hb, hc, hp]

def c6wEnv : TurnEnv := ⟨"01C6W", .ok "p", .ok "not json", .ok ()⟩

def c6wInput : ConversationInput := ⟨"q", none, "en"⟩

/-- C6 witness: the amended theorem applied to the raw reply
`not json`. -/
theorem c6_parse_failure_witness :
    (async_process [] c6wEnv c6wInput).result
      = .ok ⟨.speech (.str ("Unable to parse: " ++ pyReplaceCommaBrace "not json"
          ++ ("\nError: " ++ parseExcText .jsonDecode ++ "\n" ++ tracebackText))), "01C6W"⟩
    ∧ (async_process [] c6wEnv c6wInput).dispatched = none
    ∧ strContains ("Unable to parse: " ++ pyReplaceCommaBrace "not json"
          ++ ("\nError: " ++ parseExcText .jsonDecode ++ "\n" ++ tracebackText))
        (pyReplaceCommaBrace "not json") = true :=
  c6_parse_failure_diagnostic [] c6wEnv c6wInput "01C6W"
    [⟨"user", "p"⟩, ⟨"assistant", seedAssistant⟩, ⟨"user", "q" ++ instructionSuffix⟩]
    "not json" .jsonDecode rfl rfl rfl

/-- C7: for every turn whose session id is unknown (absent, or not a
key of the history map) and whose template renders, the message list
sent to the model is exactly the three-message seed: the rendered
prompt as a user message, the fixed assistant acknowledgement
`{"comment":"Got it!"}`, and the utterance with the instruction suffix
appended. -/
theorem c7_new_session_seed (history : HistMap) (env : TurnEnv)
    (user_input : ConversationInput) (prompt : String)
    (hnew : user_input.conversation_id.bind (histLookup history) = none)
    (hr : env.render = .ok prompt) :
    (async_process history env user_input).sent
      = some [⟨"user", prompt⟩, ⟨"assistant", seedAssistant⟩,
          ⟨"user", user_input.text ++ instructionSuffix⟩] := by
  have hb : buildMessages history env user_input
      = .ok (env.fresh_id, [⟨"user", prompt⟩, ⟨"assistant", seedAssistant⟩,
          ⟨"user", user_input.text ++ instructionSuffix⟩]) := by
    unfold buildMessages
    cases hcid : user_input.conversation_id with
    | none => simp [buildNewSession, hr]
    | some cid =>
        rw [hcid] at hnew
        have hmiss : histLookup history cid = none := hnew
        simp [hmiss, buildNewSession, hr]
  simp only [async_process, hb]
  repeat' split
  all_goals rfl

def c7Env : TurnEnv :=
  ⟨"01C7FRESH", .ok "the prompt", .ok "\x7b\x22comment\x22:\x22ok\x22\x7d", .ok ()⟩

def c7Input : ConversationInput := ⟨"hi there", none, "en"⟩

/-- C7 witness: the theorem applied to a concrete new-session turn. -/
theorem c7_witness :
    (async_process [] c7Env c7Input).sent
      = some [⟨"user", "the prompt"⟩, ⟨"assistant", seedAssistant⟩,
          ⟨"user", "hi there" ++ instructionSuffix⟩] :=
  c7_new_session_seed [] c7Env c7Input "the prompt" rfl rfl

/-- C8: for every turn whose session id is stored, the message list
sent to the model is the stored history itself (its exact prefix,
unmodified) followed by exactly one new user message: the utterance
plus the instruction suffix. -/
theorem c8_known_session_extends (history : HistMap) (env : TurnEnv)
    (user_input : ConversationInput) (cid : String) (msgs : List Message)
    (hid : user_input.conversation_id = some cid)
    (hknown : histLookup history cid = some msgs) :
    (async_process history env user_input).sent
      = some (msgs ++ [⟨"user", user_input.text ++ instructionSuffix⟩]) := by
  have hb : buildMessages history env user_input
      = .ok (cid, msgs ++ [⟨"user", user_input.text ++ instructionSuffix⟩]) := by
    unfold buildMessages
    rw [hid]
    simp [hknown]
  simp only [async_process, hb]
  repeat' split
  all_goals rfl

def c8History : HistMap :=
  [("sess8", [⟨"user", "m1"⟩, ⟨"assistant", "m2"⟩, ⟨"user", "m3"⟩])]

def c8Env : TurnEnv := ⟨"01C8FRESH", .ok "p", .error "offline", .ok ()⟩

def c8Input : ConversationInput := ⟨"again", some "sess8", "en"⟩

/-- C8 witness: the theorem applied to a concrete known-session turn. -/
theorem c8_witness :
    (async_process c8History c8Env c8Input).sent
      = some ([⟨"user", "m1"⟩, ⟨"assistant", "m2"⟩, ⟨"user", "m3"⟩]
          ++ [⟨"user", "again" ++ instructionSuffix⟩]) :=
  c8_known_session_extends c8History c8Env c8Input "sess8"
    [⟨"user", "m1"⟩, ⟨"assistant", "m2"⟩, ⟨"user", "m3"⟩] rfl rfl

/-- C9: for every new-session turn whose template rendering fails, the
history map is unchanged (no session created, nothing appended), the
model is never called, nothing is dispatched, and the turn returns the
spoken template diagnostic together with the freshly minted session
id. -/
theorem c9_render_failure_fresh_id (history : HistMap) (env : TurnEnv)
    (user_input : ConversationInput) (err : String)
    (hnew : user_input.conversation_id.bind (histLookup history) = none)
    (hr : env.render = .error err) :
    async_process history env user_input
      = { result := .ok ⟨.error ("Sorry, I had a problem with my template: " ++ err),
            env.fresh_id⟩
          history := history, sent := none, dispatched := none } := by
  have hb : buildMessages history env user_input
      = .error ("Sorry, I had a problem with my template: " ++ err) := by
    unfold buildMessages
    cases hcid : user_input.conversation_id with
    | none => simp [buildNewSession, hr]
    | some cid =>
        rw [hcid] at hnew
        have hmiss : histLookup history cid = none := hnew
        simp [hmiss, buildNewSession, hr]
  simp only [async_process, hb]

def c9Env : TurnEnv := ⟨"01C9FRESH", .error "bad template", .ok "x", .ok ()⟩

def c9Input : ConversationInput := ⟨"hello", some "unknown-id", "en"⟩

/-- C9 witness: the theorem applied to a concrete failing-template
turn. -/
theorem c9_witness :
    async_process [] c9Env c9Input
      = { result := .ok ⟨.error ("Sorry, I had a problem with my template: " ++ "bad template"),
            "01C9FRESH"⟩
          history := [], sent := none, dispatched := none } :=
  c9_render_failure_fresh_id [] c9Env c9Input "bad template" rfl rfl

/-- C10: the trailing-comma repair is a global substring replacement of
`,}` by `}`: on the already-valid input `{"comment":"a,}b"}` (whose
JSON comment value is `a,}b`) the repair rewrites the inside of the
string literal, and the parse pipeline returns the different comment
`a}b`. -/
theorem c10_repair_is_global_replacement :
    json_loads "\x7b\x22comment\x22:\x22a,\x7db\x22\x7d"
        = some (.obj [("comment", .str "a,\x7db")])
    ∧ pyReplaceCommaBrace "\x7b\x22comment\x22:\x22a,\x7db\x22\x7d"
        = "\x7b\x22comment\x22:\x22a\x7db\x22\x7d"
    ∧ extractComment (pyReplaceCommaBrace "\x7b\x22comment\x22:\x22a,\x7db\x22\x7d")
        = .ok (.str "a\x7db", [])
    ∧ Json.str "a\x7db" ≠ Json.str "a,\x7db" := by
  refine ⟨rfl, rfl, rfl, ?_⟩
  intro h
  injection h with h₁
  exact absurd h₁ (by decide)

end OpenAIConv
